import Mathlib

/-!
Shallow embedding of the Tourship backend (a tourism-marketplace REST API):
the trip booking/cancellation lifecycle, the capacity bookkeeping, the
refund computation, the guide/organiser verification state machine, the
guide-assignment responses, attraction rating aggregation and the login
error behaviour, together with proofs about these operations.

Numbers held in JavaScript variables are modelled as `Int` (counters,
day counts, millisecond timestamps) and `Rat` (monetary amounts and
percentages); fallible handlers return `Except AppError`.
-/

set_option maxRecDepth 8000

namespace Tourship

/-- Application error as produced by the backend's `AppError` class:
a message together with an HTTP status code. -/
structure AppError where
  message : String
  status : Int
  deriving DecidableEq, Repr

/-- Booking status of an embedded booking
(enum `['pending', 'confirmed', 'cancelled', 'completed', 'no_show']`). -/
inductive BookingStatus
  | pending
  | confirmed
  | cancelled
  | completed
  | noShow
  deriving DecidableEq, Repr

/-- Payment status of an embedded booking
(enum `['pending', 'partial', 'completed', 'refunded', 'cancelled']`);
the source's `'partial'` value is spelled `partialPay` here. -/
inductive PaymentStatus
  | pending
  | partialPay
  | completed
  | refunded
  | cancelled
  deriving DecidableEq, Repr

/-- Trip status (enum `['draft', 'pending_approval', 'published',
'cancelled', 'completed', 'full', 'expired']`). -/
inductive TripStatus
  | draft
  | pendingApproval
  | published
  | cancelled
  | completed
  | full
  | expired
  deriving DecidableEq, Repr

/-- Hotel-selection status of a booking
(enum `['pending', 'confirmed', 'not_required']`). -/
inductive HotelStatus
  | pending
  | confirmed
  | notRequired
  deriving DecidableEq, Repr

/-- One booking embedded in a trip (`bookingSchema` of
src/src/models/Trip.js, second schema variant, lines 420-478), restricted
to the fields the booking and cancellation handlers read or write.
`id` stands for the Mongo subdocument id used by `trip.bookings.id(...)`. -/
structure Booking where
  id : Nat
  user : Nat
  numberOfPeople : Int
  totalAmount : Rat
  paidAmount : Rat
  bookingStatus : BookingStatus
  paymentStatus : PaymentStatus
  contactPhone : String
  contactEmail : String
  selectedHotel : Option Nat
  hotelStatus : HotelStatus
  deriving DecidableEq, Repr

/-- Capacity subdocument `capacity` of a trip. -/
structure Capacity where
  maxPeople : Int
  currentBookings : Int
  availableSlots : Int
  deriving DecidableEq, Repr

/-- Analytics subdocument `analytics` of a trip (the counters the booking
handlers touch). -/
structure Analytics where
  views : Int
  bookingsCount : Int
  revenue : Rat
  deriving DecidableEq, Repr

/-- One refund rule of `cancellationPolicy.refundRules`. -/
structure RefundRule where
  daysBeforeTrip : Int
  refundPercent : Rat
  deriving DecidableEq, Repr

/-- Cancellation policy subdocument `cancellationPolicy` (only the refund
rules are read by the cancellation handler). -/
structure CancellationPolicy where
  refundRules : List RefundRule
  deriving DecidableEq, Repr

/-- Group discount subdocument `pricing.groupDiscount`. -/
structure GroupDiscount where
  minPeople : Int
  discountPercent : Rat
  deriving DecidableEq, Repr

/-- Early-bird discount subdocument `pricing.earlyBirdDiscount`. -/
structure EarlyBirdDiscount where
  deadline : Option Int
  discountPercent : Rat
  deriving DecidableEq, Repr

/-- Pricing subdocument `pricing` of a trip (fields read by `bookTrip`). -/
structure Pricing where
  pricePerPerson : Rat
  groupDiscount : Option GroupDiscount
  earlyBirdDiscount : Option EarlyBirdDiscount
  deriving DecidableEq, Repr

/-- A trip document (second `tripSchema` variant of src/src/models/Trip.js,
lines 481-854), restricted to the fields the booking, cancellation and
status logic reads or writes.  Dates are milliseconds since the epoch.
`hotelOptions` keeps the subdocument ids of the hotel options. -/
structure Trip where
  status : TripStatus
  isActive : Bool
  startDate : Int
  endDate : Int
  capacity : Capacity
  pricing : Pricing
  bookings : List Booking
  hotelOptions : List Nat
  cancellationPolicy : CancellationPolicy
  analytics : Analytics
  deriving DecidableEq, Repr

/-- Pre-save middleware of the trip schema (`tripSchema.pre('save')`,
src/src/models/Trip.js lines 907-938) on the fields modelled here: it
recomputes `capacity.availableSlots`, flips a `published` trip that has
reached capacity to `full`, and expires a trip whose `endDate` has passed.
The slug-generation branch of the hook only fills a missing `slug` from the
title and a database query and touches none of these fields. -/
def preSave (now : Int) (t : Trip) : Trip :=
  let t1 := { t with capacity := { t.capacity with
    availableSlots := t.capacity.maxPeople - t.capacity.currentBookings } }
  let t2 := if t1.capacity.currentBookings ≥ t1.capacity.maxPeople ∧
      t1.status = TripStatus.published then
    { t1 with status := TripStatus.full } else t1
  if now > t2.endDate ∧ t2.status ≠ TripStatus.completed ∧
      t2.status ≠ TripStatus.cancelled then
    { t2 with status := TripStatus.expired } else t2

/-- The booking user as read by the booking handlers (id, phone, email). -/
structure UserRec where
  id : Nat
  phone : String
  email : String
  deriving DecidableEq, Repr

/-- Request body of the tourist `bookTrip` handler (fields it reads). -/
structure BookRequest where
  numberOfPeople : Int
  contactPhone : Option String
  contactEmail : Option String
  selectedHotelIndex : Option Nat
  deriving DecidableEq, Repr

/-- Tourist booking handler `bookTrip` (src/unnamed/part_002 lines
160-275).  `user` is the result of the `User.findById` lookup and `newId`
the subdocument id Mongo assigns to the pushed booking.  The handler's
`Trip.findOne` filter (`status: 'published'`, `isActive: true`,
`startDate > now`) appears as the not-found guard. -/
def bookTrip (now : Int) (user : Option UserRec) (req : BookRequest)
    (newId : Nat) (t : Trip) : Except AppError Trip :=
  if req.numberOfPeople < 1 then
    Except.error ⟨"Number of people is required", 400⟩
  else if ¬(t.status = TripStatus.published ∧ t.isActive = true ∧
      t.startDate > now) then
    Except.error ⟨"Trip not found or no longer available", 404⟩
  else
    let availableSlots := t.capacity.maxPeople - t.capacity.currentBookings
    if req.numberOfPeople > availableSlots then
      Except.error ⟨"Only " ++ toString availableSlots ++ " slots available", 400⟩
    else
      match user with
      | none => Except.error ⟨"User not found", 404⟩
      | some u =>
        let amount0 := t.pricing.pricePerPerson * (req.numberOfPeople : Rat)
        let amount1 := match t.pricing.groupDiscount with
          | some gd =>
            if req.numberOfPeople ≥ gd.minPeople then
              amount0 - amount0 * (gd.discountPercent / 100)
            else amount0
          | none => amount0
        let amount2 := match t.pricing.earlyBirdDiscount with
          | some ebd => match ebd.deadline with
            | some dl =>
              if now < dl then amount1 - amount1 * (ebd.discountPercent / 100)
              else amount1
            | none => amount1
          | none => amount1
        let booking : Booking := {
          id := newId
          user := u.id
          numberOfPeople := req.numberOfPeople
          totalAmount := amount2
          paidAmount := 0
          bookingStatus := BookingStatus.pending
          paymentStatus := PaymentStatus.pending
          contactPhone := req.contactPhone.getD u.phone
          contactEmail := req.contactEmail.getD u.email
          selectedHotel := req.selectedHotelIndex.bind (fun i => t.hotelOptions[i]?)
          hotelStatus := if t.hotelOptions.length > 0 then HotelStatus.pending
            else HotelStatus.notRequired }
        let t1 := { t with
          bookings := t.bookings ++ [booking]
          capacity := { t.capacity with
            currentBookings := t.capacity.currentBookings + req.numberOfPeople }
          analytics := { t.analytics with
            bookingsCount := t.analytics.bookingsCount + 1 } }
        let t2 := if t1.capacity.currentBookings ≥ t1.capacity.maxPeople then
          { t1 with status := TripStatus.full } else t1
        Except.ok (preSave now t2)

/-- Update of the first booking with the given subdocument id, as performed
by mutating the subdocument returned by `trip.bookings.id(bookingId)`. -/
def updateFirst (bookingId : Nat) (f : Booking → Booking) :
    List Booking → List Booking
  | [] => []
  | b :: bs =>
    if b.id = bookingId then f b :: bs
    else b :: updateFirst bookingId f bs

/-- Number of days until the trip starts, as computed by the cancellation
handler: `Math.ceil((startDate - now) / (1000 * 60 * 60 * 24))`. -/
def daysUntilTrip (now startDate : Int) : Int :=
  Int.ceil (((startDate - now : Int) : Rat) / 86400000)

/-- Refund amount computed by `cancelMyBooking` (src/unnamed/part_002 lines
376-398) from the booking's `paidAmount`, the days until the trip starts
and the trip's refund rules: the rules are sorted by descending
`daysBeforeTrip` and the first rule whose threshold is at most the day
count applies; with no configured rules, default tiers of 90% (more than 7
days), 50% (more than 3 days) and 0% apply. -/
def refundAmountFor (paidAmount : Rat) (d : Int) (rules : List RefundRule) : Rat :=
  if rules ≠ [] then
    match (rules.mergeSort (fun a b => decide (b.daysBeforeTrip ≤ a.daysBeforeTrip))).find?
        (fun r => d ≥ r.daysBeforeTrip) with
    | some rule => paidAmount * rule.refundPercent / 100
    | none => 0
  else
    if d > 7 then paidAmount * (9 / 10)
    else if d > 3 then paidAmount * (1 / 2)
    else 0

/-- Tourist cancellation handler `cancelMyBooking` (src/unnamed/part_002
lines 348-425): looks the booking up by id, checks ownership and that the
booking is neither cancelled nor completed, computes the refund amount,
marks the booking cancelled, decrements `capacity.currentBookings`, reverts
a `full` trip to `published` and saves.  Returns the saved trip and the
refund amount reported in the response. -/
def cancelMyBooking (now : Int) (userId : Nat) (bookingId : Nat) (t : Trip) :
    Except AppError (Trip × Rat) :=
  match t.bookings.find? (fun b => b.id = bookingId) with
  | none => Except.error ⟨"Booking not found", 404⟩
  | some booking =>
    if booking.user ≠ userId then
      Except.error ⟨"Not authorized to cancel this booking", 403⟩
    else if booking.bookingStatus = BookingStatus.cancelled then
      Except.error ⟨"Booking is already cancelled", 400⟩
    else if booking.bookingStatus = BookingStatus.completed then
      Except.error ⟨"Cannot cancel a completed booking", 400⟩
    else
      let refundAmount := refundAmountFor booking.paidAmount
        (daysUntilTrip now t.startDate) t.cancellationPolicy.refundRules
      let newBookings := updateFirst bookingId
        (fun b => { b with bookingStatus := BookingStatus.cancelled }) t.bookings
      let t1 := { t with bookings := newBookings }
      let t2 := { t1 with capacity := { t1.capacity with
        currentBookings := t1.capacity.currentBookings - booking.numberOfPeople } }
      let t3 := if t2.status = TripStatus.full then
        { t2 with status := TripStatus.published } else t2
      Except.ok (preSave now t3, refundAmount)

/-- Organiser cancellation handler `removeBooking`
(src/src/controllers/tripController.js lines 842-888): looks the booking up
by id, unconditionally decrements `capacity.currentBookings` by the
booking's head-count, optionally flips a completed payment to `refunded`,
marks the booking cancelled, reverts a `full` trip to `published` and
saves.  Unlike `cancelMyBooking` it never checks whether the booking is
already cancelled. -/
def removeBooking (now : Int) (refund : Bool) (bookingId : Nat) (t : Trip) :
    Except AppError Trip :=
  match t.bookings.find? (fun b => b.id = bookingId) with
  | none => Except.error ⟨"Booking not found", 404⟩
  | some booking =>
    let t1 := { t with capacity := { t.capacity with
      currentBookings := t.capacity.currentBookings - booking.numberOfPeople } }
    let cancelOne : Booking → Booking := fun b =>
      let b1 := if refund ∧ b.paymentStatus = PaymentStatus.completed then
        { b with paymentStatus := PaymentStatus.refunded } else b
      { b1 with bookingStatus := BookingStatus.cancelled }
    let t2 := { t1 with bookings := updateFirst bookingId cancelOne t1.bookings }
    let t3 := if t2.status = TripStatus.full then
      { t2 with status := TripStatus.published } else t2
    Except.ok (preSave now t3)

/-- Request body of the organiser `addBooking` handler (fields it reads). -/
structure OrgAddBookingRequest where
  userId : Nat
  numberOfPeople : Int
  paymentStatus : Option PaymentStatus
  selectedHotel : Option Nat
  contactPhone : Option String
  contactEmail : Option String
  deriving DecidableEq, Repr

/-- Organiser booking handler `addBooking`
(src/src/controllers/tripController.js lines 655-748).  `user` is the
result of the active-tourist lookup for `req.userId`.  Rejects when the
requested head-count would exceed `capacity.maxPeople`, when the user is
missing or when the user already holds a non-cancelled booking. -/
def addBookingOrganiser (now : Int) (user : Option UserRec)
    (req : OrgAddBookingRequest) (newId : Nat) (t : Trip) :
    Except AppError Trip :=
  if req.numberOfPeople = 0 then
    Except.error ⟨"User ID and number of people are required", 400⟩
  else if t.capacity.currentBookings + req.numberOfPeople > t.capacity.maxPeople then
    Except.error ⟨"Only " ++ toString (t.capacity.maxPeople - t.capacity.currentBookings)
      ++ " slots available", 400⟩
  else
    match user with
    | none => Except.error ⟨"User not found or inactive", 404⟩
    | some u =>
      if (t.bookings.find? (fun b => b.user = req.userId ∧
          b.bookingStatus ≠ BookingStatus.cancelled)).isSome then
        Except.error ⟨"User already has an active booking for this trip", 400⟩
      else
        let booking : Booking := {
          id := newId
          user := req.userId
          numberOfPeople := req.numberOfPeople
          totalAmount := t.pricing.pricePerPerson * (req.numberOfPeople : Rat)
          paidAmount := 0
          bookingStatus := BookingStatus.pending
          paymentStatus := req.paymentStatus.getD PaymentStatus.pending
          contactPhone := req.contactPhone.getD u.phone
          contactEmail := req.contactEmail.getD u.email
          selectedHotel := req.selectedHotel
          hotelStatus := if req.selectedHotel.isSome then HotelStatus.pending
            else HotelStatus.notRequired }
        let t1 := { t with
          bookings := t.bookings ++ [booking]
          capacity := { t.capacity with
            currentBookings := t.capacity.currentBookings + req.numberOfPeople }
          analytics := { t.analytics with
            bookingsCount := t.analytics.bookingsCount + 1 } }
        let t2 := if t1.capacity.currentBookings ≥ t1.capacity.maxPeople then
          { t1 with status := TripStatus.full } else t1
        Except.ok (preSave now t2)

/-- Instance method `tripSchema.methods.addBooking` (src/src/models/Trip.js
lines 1014-1025): throws only when the trip is already at or over capacity,
then pushes the booking, adds its head-count to `currentBookings` and its
amount to the revenue counter, and saves. -/
def addBookingMethod (now : Int) (bookingData : Booking) (t : Trip) :
    Except String Trip :=
  if t.capacity.currentBookings ≥ t.capacity.maxPeople then
    Except.error "Trip is fully booked"
  else
    Except.ok (preSave now { t with
      bookings := t.bookings ++ [bookingData]
      capacity := { t.capacity with
        currentBookings := t.capacity.currentBookings + bookingData.numberOfPeople }
      analytics := { t.analytics with
        bookingsCount := t.analytics.bookingsCount + 1
        revenue := t.analytics.revenue + bookingData.totalAmount } })

instance {e a : Type} [DecidableEq e] [DecidableEq a] : DecidableEq (Except e a) :=
  fun x y =>
  match x, y with
  | Except.ok u, Except.ok v =>
    if h : u = v then isTrue (congrArg Except.ok h)
    else isFalse (fun hc => h (Except.ok.inj hc))
  | Except.error u, Except.error v =>
    if h : u = v then isTrue (congrArg Except.error h)
    else isFalse (fun hc => h (Except.error.inj hc))
  | Except.ok _, Except.error _ => isFalse (fun hc => Except.noConfusion hc)
  | Except.error _, Except.ok _ => isFalse (fun hc => Except.noConfusion hc)

/-- Sum of `numberOfPeople` over the bookings whose `bookingStatus` is not
`cancelled`. -/
def activeSum (bs : List Booking) : Int :=
  ((bs.filter (fun b => b.bookingStatus ≠ BookingStatus.cancelled)).map
    (fun b => b.numberOfPeople)).sum

/-- Capacity bookkeeping invariant of a trip: `capacity.currentBookings`
equals the head-count sum over its non-cancelled embedded bookings. -/
def capacityInvariant (t : Trip) : Prop :=
  t.capacity.currentBookings = activeSum t.bookings

instance (t : Trip) : Decidable (capacityInvariant t) := by
  unfold capacityInvariant; infer_instance

/-- One booking-lifecycle operation on a trip: a tourist booking request
(`bookTrip`), a tourist cancellation (`cancelMyBooking`) or an organiser
cancellation (`removeBooking`), each at some instant `now`. -/
inductive TripOp
  | book (now : Int) (user : Option UserRec) (req : BookRequest) (newId : Nat)
  | cancelMy (now : Int) (userId : Nat) (bookingId : Nat)
  | remove (now : Int) (refund : Bool) (bookingId : Nat)

/-- Application of one operation to a trip: a handler that returns an error
leaves the stored trip unchanged. -/
def applyOp (t : Trip) : TripOp → Trip
  | TripOp.book now user req newId =>
    match bookTrip now user req newId t with
    | Except.ok t1 => t1
    | Except.error _ => t
  | TripOp.cancelMy now userId bookingId =>
    match cancelMyBooking now userId bookingId t with
    | Except.ok (t1, _) => t1
    | Except.error _ => t
  | TripOp.remove now refund bookingId =>
    match removeBooking now refund bookingId t with
    | Except.ok t1 => t1
    | Except.error _ => t

/-- Sequential application of a list of operations. -/
def applyOps (t : Trip) : List TripOp → Trip
  | [] => t
  | op :: ops => applyOps (applyOp t op) ops

/-- An operation is cancellation-safe in a state when, if it is an
organiser `removeBooking` whose booking lookup succeeds, the booking it
targets is not already cancelled.  Tourist operations are always safe:
`bookTrip` adds a fresh booking and `cancelMyBooking` itself rejects
already-cancelled bookings. -/
def opSafe (t : Trip) : TripOp → Prop
  | TripOp.remove _ _ bookingId =>
    ∀ b, t.bookings.find? (fun x => x.id = bookingId) = some b →
      b.bookingStatus ≠ BookingStatus.cancelled
  | _ => True

/-- A list of operations is cancellation-safe from a state when each
operation is safe in the state it actually executes in. -/
def opsSafe : List TripOp → Trip → Prop
  | [], _ => True
  | op :: ops, t => opSafe t op ∧ opsSafe ops (applyOp t op)

/-- Verification status of a guide or organiser profile.  The schema enum
is `['pending', 'under_review', 'approved', 'rejected']`; `verified` is the
extra value the organiser submission controller assigns even though the
schema enum does not list it. -/
inductive VerificationStatus
  | pending
  | underReview
  | approved
  | rejected
  | verified
  deriving DecidableEq, Repr

/-- Guide profile fields used by verification (src/unnamed/part_000
`guideProfileSchema` lines 80-101 and the guide controller).  A missing or
empty (falsy) licence number is modelled as `none`. -/
structure GuideProfile where
  isVerified : Bool
  verificationStatus : VerificationStatus
  licenseNumber : Option String
  languagesSpoken : List String
  operatingDistricts : List String
  verifiedAt : Option Int
  verifiedBy : Option Nat
  rejectionReason : Option String
  totalTours : Int
  deriving DecidableEq, Repr

/-- Organiser profile fields used by verification. -/
structure OrganiserProfile where
  isVerified : Bool
  verificationStatus : VerificationStatus
  companyName : Option String
  companyType : Option String
  registrationNumber : Option String
  verifiedAt : Option Int
  verifiedBy : Option Nat
  rejectionReason : Option String
  deriving DecidableEq, Repr

/-- Guide self-submission for verification
(src/src/controllers/guideController.js lines 69-107): rejected when the
profile is already verified or already under review or when the licence
number, languages or operating districts are missing; otherwise the status
moves to `under_review`. -/
def guideSubmitForVerification (g : GuideProfile) : Except AppError GuideProfile :=
  if g.isVerified then
    Except.error ⟨"Your profile is already verified", 400⟩
  else if g.verificationStatus = VerificationStatus.underReview then
    Except.error ⟨"Your profile is already under review", 400⟩
  else if g.licenseNumber.isNone then
    Except.error ⟨"License number is required for verification", 400⟩
  else if g.languagesSpoken = [] then
    Except.error ⟨"At least one language is required", 400⟩
  else if g.operatingDistricts = [] then
    Except.error ⟨"At least one operating district is required", 400⟩
  else
    Except.ok { g with verificationStatus := VerificationStatus.underReview }

/-- Statuses the organiser profile schema accepts
(src/unnamed/part_000 lines 154-158,
`enum: ['pending', 'under_review', 'approved', 'rejected']`): the value
`'verified'` the submission controller assigns is not among them. -/
def organiserStatusEnum : List VerificationStatus :=
  [VerificationStatus.pending, VerificationStatus.underReview,
   VerificationStatus.approved, VerificationStatus.rejected]

/-- Error raised when `organiser.save()` fails the schema's enum
validation.  The source's terminal error-formatting middleware
(errorHandler.js, not staged) turns the mongoose ValidationError into an
HTTP response; no theorem below depends on the message or status modelled
here, only on the submission failing with the profile unchanged. -/
def organiserEnumValidationError : AppError :=
  ⟨"User validation failed: organiserProfile.verificationStatus: `verified` is not a valid enum value for path `verificationStatus`.", 500⟩

/-- Organiser self-submission for verification
(src/src/controllers/organiserController.js lines 61-96): an already
verified profile gets a success response with no change; otherwise the
company name, company type and registration number are required, and the
controller then tries to auto-approve, assigning `verificationStatus :=
'verified'` and `isVerified := true` and awaiting `organiser.save()`.
Mongoose validates the assigned status against the schema enum on save;
`'verified'` is outside `organiserStatusEnum`, so the save throws a
ValidationError, the catch forwards it, and nothing is persisted.  The
enum check is modelled for `verificationStatus`, the one modelled field
whose assigned value can violate its schema enum on this path. -/
def organiserSubmitForVerification (now : Int) (o : OrganiserProfile) :
    Except AppError OrganiserProfile :=
  if o.isVerified then
    Except.ok o
  else if o.companyName.isNone ∨ o.companyType.isNone ∨
      o.registrationNumber.isNone then
    Except.error ⟨"Required fields missing for verification", 400⟩
  else
    let o1 := { o with
      verificationStatus := VerificationStatus.verified
      isVerified := true
      verifiedAt := some now }
    if o1.verificationStatus ∈ organiserStatusEnum then
      Except.ok o1
    else
      Except.error organiserEnumValidationError

/-- Admin guide verification (src/src/controllers/adminController.js lines
258-299): only a profile whose status is `under_review` can be approved or
rejected; any other status is rejected with an error and the profile is
left unchanged. -/
def verifyGuide (now : Int) (adminId : Nat) (action : String)
    (rejectionReason : Option String) (g : GuideProfile) :
    Except AppError GuideProfile :=
  if g.verificationStatus ≠ VerificationStatus.underReview then
    Except.error ⟨"This guide is not pending verification", 400⟩
  else if action = "approve" then
    Except.ok { g with
      isVerified := true
      verificationStatus := VerificationStatus.approved
      verifiedAt := some now
      verifiedBy := some adminId
      rejectionReason := none }
  else if action = "reject" then
    Except.ok { g with
      isVerified := false
      verificationStatus := VerificationStatus.rejected
      rejectionReason := rejectionReason }
  else
    Except.error ⟨"Invalid action. Use \"approve\" or \"reject\"", 400⟩

/-- Admin organiser verification (src/src/controllers/adminController.js
lines 304-345), same shape as `verifyGuide`. -/
def verifyOrganiser (now : Int) (adminId : Nat) (action : String)
    (rejectionReason : Option String) (o : OrganiserProfile) :
    Except AppError OrganiserProfile :=
  if o.verificationStatus ≠ VerificationStatus.underReview then
    Except.error ⟨"This organiser is not pending verification", 400⟩
  else if action = "approve" then
    Except.ok { o with
      isVerified := true
      verificationStatus := VerificationStatus.approved
      verifiedAt := some now
      verifiedBy := some adminId
      rejectionReason := none }
  else if action = "reject" then
    Except.ok { o with
      isVerified := false
      verificationStatus := VerificationStatus.rejected
      rejectionReason := rejectionReason }
  else
    Except.error ⟨"Invalid action. Use \"approve\" or \"reject\"", 400⟩

/-- One review embedded in an attraction (the fields the rating
aggregation reads). -/
structure AttractionReview where
  user : Nat
  rating : Int
  deriving DecidableEq, Repr

/-- Five-bucket star histogram `ratings.distribution`. -/
structure RatingDistribution where
  five : Int
  four : Int
  three : Int
  two : Int
  one : Int
  deriving DecidableEq, Repr

/-- Rating aggregate `ratings` of an attraction. -/
structure AttractionRatings where
  overall : Rat
  totalReviews : Int
  distribution : RatingDistribution
  deriving DecidableEq, Repr

/-- An attraction document restricted to the fields the review and rating
logic reads or writes. -/
structure Attraction where
  isActive : Bool
  reviews : List AttractionReview
  ratings : AttractionRatings
  viewCount : Int
  wishlistCount : Int
  isFeatured : Bool
  isUNESCOSite : Bool
  popularityScore : Rat
  deriving DecidableEq, Repr

/-- JavaScript `Number.prototype.toFixed(1)` on the exact quotient: the
multiple of one tenth nearest to `x`, ties rounded up. -/
def toFixed1 (x : Rat) : Rat :=
  ((Int.floor (x * 10 + 1 / 2) : Int) : Rat) / 10

/-- Mean of a list of review ratings (0 for an empty list). -/
def meanRatingOf (rs : List AttractionReview) : Rat :=
  if rs.length = 0 then 0
  else (((rs.map (fun r => r.rating)).sum : Int) : Rat) / (rs.length : Rat)

/-- Mean of the embedded review ratings of an attraction (0 for an empty
review list). -/
def meanRating (a : Attraction) : Rat :=
  meanRatingOf a.reviews

/-- Rating recomputation `attractionSchema.methods.calculateRatings`
(src/unnamed/part_000 lines 1169-1188): with no reviews it zeroes `overall`
and `totalReviews` (and returns early, leaving the histogram untouched);
otherwise it sets `overall` to the mean of all review ratings passed
through `toFixed(1)` and recounts the five histogram buckets by a full
re-scan. -/
def calculateRatings (a : Attraction) : Attraction :=
  if a.reviews.length = 0 then
    { a with ratings := { a.ratings with overall := 0, totalReviews := 0 } }
  else
    let total : Int := (a.reviews.map (fun r => r.rating)).sum
    { a with ratings := {
        overall := toFixed1 ((total : Rat) / (a.reviews.length : Rat))
        totalReviews := a.reviews.length
        distribution := {
          five := (a.reviews.filter (fun r => r.rating = 5)).length
          four := (a.reviews.filter (fun r => r.rating = 4)).length
          three := (a.reviews.filter (fun r => r.rating = 3)).length
          two := (a.reviews.filter (fun r => r.rating = 2)).length
          one := (a.reviews.filter (fun r => r.rating = 1)).length } } }

/-- Pre-save middleware of the attraction schema on the fields modelled
here: it recomputes the hand-tuned `popularityScore`; the slug branch only
fills a missing slug and touches none of these fields. -/
def attractionPreSave (a : Attraction) : Attraction :=
  { a with popularityScore :=
      a.ratings.overall * 20 +
      (a.viewCount : Rat) * (1 / 100) +
      (a.wishlistCount : Rat) * (1 / 2) +
      (a.ratings.totalReviews : Rat) * 2 +
      (if a.isFeatured then 50 else 0) +
      (if a.isUNESCOSite then 100 else 0) }

/-- Review-creation handler `addReview`
(src/src/controllers/userAttractionController.js lines 978-1023): validates
the star value, requires an active attraction, rejects a second review by
the same user, appends the review, recomputes the rating aggregate and
saves. -/
def addReview (userId : Nat) (rating : Int) (a : Attraction) :
    Except AppError Attraction :=
  if rating < 1 ∨ rating > 5 then
    Except.error ⟨"Please provide a rating between 1 and 5", 400⟩
  else if ¬a.isActive then
    Except.error ⟨"Attraction not found", 404⟩
  else if (a.reviews.find? (fun r => r.user = userId)).isSome then
    Except.error ⟨"You have already reviewed this attraction", 400⟩
  else
    Except.ok (attractionPreSave (calculateRatings
      { a with reviews := a.reviews ++ [⟨userId, rating⟩] }))

/-- Guide-assignment status (enum `['not_assigned', 'pending', 'accepted',
'rejected']`). -/
inductive AssignStatus
  | notAssigned
  | pending
  | accepted
  | rejected
  deriving DecidableEq, Repr

/-- Guide-assignment fields of the first trip schema variant
(src/src/models/Trip.js lines 101-113), the variant the guide controller's
endpoint works against. -/
structure TripGuideV1 where
  assignedGuide : Option Nat
  guideStatus : AssignStatus
  guideRejectionReason : Option String
  deriving DecidableEq, Repr

/-- The guide user's counters touched by the assignment response. -/
structure GuideUser where
  totalTours : Int
  deriving DecidableEq, Repr

/-- Guide assignment-response endpoint `respondToAssignment`
(src/src/controllers/guideController.js lines 306-349): requires a trip
assigned to this guide with `guideStatus` `pending`; accepting sets the
status to `accepted` and increments the guide's `totalTours`; rejecting
sets the status to `rejected` and records a reason.  Neither branch writes
`assignedGuide`. -/
def respondToAssignment (action : String) (reason : Option String)
    (guideId : Nat) (t : TripGuideV1) (g : GuideUser) :
    Except AppError (TripGuideV1 × GuideUser) :=
  if ¬(action = "accept" ∨ action = "reject") then
    Except.error ⟨"Invalid action. Use \"accept\" or \"reject\"", 400⟩
  else if ¬(t.assignedGuide = some guideId ∧ t.guideStatus = AssignStatus.pending) then
    Except.error ⟨"Trip assignment not found or already responded", 404⟩
  else if action = "accept" then
    Except.ok ({ t with guideStatus := AssignStatus.accepted },
      { g with totalTours := g.totalTours + 1 })
  else
    Except.ok ({ t with
      guideStatus := AssignStatus.rejected
      guideRejectionReason := some (reason.getD "No reason provided") }, g)

/-- Assignment subdocument `guideAssignment` of the second trip schema
variant. -/
structure GuideAssignment where
  status : AssignStatus
  assignedAt : Option Int
  respondedAt : Option Int
  rejectionReason : Option String
  deriving DecidableEq, Repr

/-- Guide-assignment fields of the second trip schema variant
(src/src/models/Trip.js lines 746-759). -/
structure TripGuideV2 where
  guide : Option Nat
  guideAssignment : GuideAssignment
  deriving DecidableEq, Repr

/-- Instance method `tripSchema.methods.respondToGuideAssignment`
(src/src/models/Trip.js lines 1056-1064): records the accept/reject status
and response time; on a rejection that carries a reason it also records the
reason and clears the `guide` reference.  It touches no user counters. -/
def respondToGuideAssignment (accept : Bool) (reason : Option String)
    (now : Int) (t : TripGuideV2) : TripGuideV2 :=
  let t1 := { t with guideAssignment := { t.guideAssignment with
    status := if accept then AssignStatus.accepted else AssignStatus.rejected
    respondedAt := some now } }
  if ¬accept ∧ reason.isSome then
    { t1 with
      guideAssignment := { t1.guideAssignment with rejectionReason := reason }
      guide := none }
  else t1

/-- A stored user account as read by the login handler.  `password` stands
for the stored secret; the bcrypt `comparePassword` check is modelled as
equality with the submitted password. -/
structure UserAuth where
  id : Nat
  email : String
  password : String
  isActive : Bool
  deriving DecidableEq, Repr

/-- Login handler (src/unnamed/part_003 lines 95-139): unknown email and
wrong password both produce the same 401 `"Invalid email or password"`
error; a deactivated account is reported separately before the password is
ever compared. -/
def login (db : List UserAuth) (email password : String) :
    Except AppError UserAuth :=
  match db.find? (fun u => u.email = email) with
  | none => Except.error ⟨"Invalid email or password", 401⟩
  | some u =>
    if ¬u.isActive then
      Except.error ⟨"Your account has been deactivated. Please contact support.", 401⟩
    else if password ≠ u.password then
      Except.error ⟨"Invalid email or password", 401⟩
    else
      Except.ok u

/-- Static `userSchema.statics.findByCredentials` (src/unnamed/part_000
lines 433-441): throws the same `"Invalid email or password"` message for
an unknown email and for a wrong password. -/
def findByCredentials (db : List UserAuth) (email password : String) :
    Except String UserAuth :=
  match db.find? (fun u => u.email = email) with
  | none => Except.error "Invalid email or password"
  | some u =>
    if password ≠ u.password then Except.error "Invalid email or password"
    else Except.ok u

/-- Refund percentage determined by the days-until-start count and the
refund-rule table, factored out of `refundAmountFor`: the percent of the
first applicable rule of the descending sort, 0 when no rule applies, and
the default tiers (90 above 7 days, 50 above 3 days, else 0) when no rules
are configured. -/
def refundPercent (d : Int) (rules : List RefundRule) : Rat :=
  if rules ≠ [] then
    match (rules.mergeSort (fun a b => decide (b.daysBeforeTrip ≤ a.daysBeforeTrip))).find?
        (fun r => d ≥ r.daysBeforeTrip) with
    | some rule => rule.refundPercent
    | none => 0
  else
    if d > 7 then 90
    else if d > 3 then 50
    else 0

/-- Head-count contribution of one booking to the active-booking sum:
its `numberOfPeople` unless it is cancelled. -/
def contrib (b : Booking) : Int :=
  if b.bookingStatus ≠ BookingStatus.cancelled then b.numberOfPeople else 0

/-- Constructor test for `Except` results (true exactly on `ok`). -/
def isOkE {e a : Type} : Except e a → Bool
  | Except.ok _ => true
  | Except.error _ => false

/-- A concrete tourist used to instantiate the theorems. -/
def witnessUser : UserRec := ⟨7, "9999", "tourist@example.com"⟩

/-- A concrete embedded booking: 8 people, 400 of 800 paid. -/
def witnessBooking : Booking := {
  id := 1
  user := 7
  numberOfPeople := 8
  totalAmount := 800
  paidAmount := 400
  bookingStatus := BookingStatus.pending
  paymentStatus := PaymentStatus.partialPay
  contactPhone := "9999"
  contactEmail := "tourist@example.com"
  selectedHotel := none
  hotelStatus := HotelStatus.notRequired }

/-- A concrete published trip used to instantiate the theorems: capacity
10 with 8 places taken by one embedded booking, starting at day 1000 and
ending at day 1002 (in milliseconds). -/
def witnessTrip : Trip := {
  status := TripStatus.published
  isActive := true
  startDate := 86400000000
  endDate := 86572800000
  capacity := { maxPeople := 10, currentBookings := 8, availableSlots := 2 }
  pricing := { pricePerPerson := 100, groupDiscount := none, earlyBirdDiscount := none }
  bookings := [witnessBooking]
  hotelOptions := []
  cancellationPolicy := { refundRules := [] }
  analytics := { views := 0, bookingsCount := 1, revenue := 0 } }

/-- A concrete trip with one active 2-person booking and a consistent
counter, used for the capacity-invariant counterexample. -/
def c1Trip : Trip := { witnessTrip with
  capacity := { maxPeople := 10, currentBookings := 2, availableSlots := 8 }
  bookings := [{ witnessBooking with
    numberOfPeople := 2, totalAmount := 200, paidAmount := 0,
    paymentStatus := PaymentStatus.pending }] }

/-- A concrete booking request of 5 people against the 2 remaining places
of `witnessTrip`, used for the overbooking evaluation. -/
def c2Booking : Booking := { witnessBooking with
  id := 2, user := 9, numberOfPeople := 5, totalAmount := 500, paidAmount := 0 }

/-- A concrete full trip: capacity 10 filled by an 8-person and a 2-person
booking. -/
def c3FullTrip : Trip := { witnessTrip with
  status := TripStatus.full
  capacity := { maxPeople := 10, currentBookings := 10, availableSlots := 0 }
  bookings := [witnessBooking,
    { witnessBooking with id := 2, user := 9, numberOfPeople := 2, totalAmount := 200 }] }

/-- Result of booking 2 places on `witnessTrip` at time 0. -/
def c3BookResult : Trip :=
  ((bookTrip 0 (some witnessUser) ⟨2, none, none, none⟩ 5 witnessTrip).toOption).getD witnessTrip

/-- Result of tourist 9 cancelling booking 2 on the full trip at time 0. -/
def c3CancelPair : Trip × Rat :=
  ((cancelMyBooking 0 9 2 c3FullTrip).toOption).getD (c3FullTrip, 0)

/-- A concrete refund-rule table: 100% at 30 or more days out, 80% at 10
or more, 25% at 3 or more. -/
def c4Rules : List RefundRule := [⟨3, 25⟩, ⟨10, 80⟩, ⟨30, 100⟩]

/-- A concrete trip carrying the `c4Rules` refund table. -/
def c9Trip : Trip := { witnessTrip with
  cancellationPolicy := { refundRules := c4Rules } }

/-- Result of tourist 7 cancelling booking 1 on `c9Trip` 15 days before
its start. -/
def c9CancelPair : Trip × Rat :=
  ((cancelMyBooking 85104000000 7 1 c9Trip).toOption).getD (c9Trip, 0)

/-- A concrete guide profile with all required verification fields and
status `pending`. -/
def c5Guide : GuideProfile := {
  isVerified := false
  verificationStatus := VerificationStatus.pending
  licenseNumber := some "LIC1"
  languagesSpoken := ["english"]
  operatingDistricts := ["jaipur"]
  verifiedAt := none
  verifiedBy := none
  rejectionReason := none
  totalTours := 0 }

/-- A concrete organiser profile with all required verification fields and
status `pending`. -/
def c5Organiser : OrganiserProfile := {
  isVerified := false
  verificationStatus := VerificationStatus.pending
  companyName := some "Acme Tours"
  companyType := some "tour_operator"
  registrationNumber := some "REG9"
  verifiedAt := none
  verifiedBy := none
  rejectionReason := none }

/-- A concrete attraction with two 5-star reviews and a consistent rating
aggregate. -/
def c6Attraction : Attraction := {
  isActive := true
  reviews := [⟨1, 5⟩, ⟨2, 5⟩]
  ratings := { overall := 5, totalReviews := 2, distribution := ⟨2, 0, 0, 0, 0⟩ }
  viewCount := 0
  wishlistCount := 0
  isFeatured := false
  isUNESCOSite := false
  popularityScore := 0 }

/-- A concrete trip-assignment state: guide 5 assigned and pending. -/
def c7Trip : TripGuideV1 := {
  assignedGuide := some 5
  guideStatus := AssignStatus.pending
  guideRejectionReason := none }

/-- A concrete guide-user counter state. -/
def c7User : GuideUser := ⟨3⟩

/-- A concrete user table with one active account. -/
def c8Db : List UserAuth := [⟨1, "a@b.c", "secret", true⟩]

/-- Result of the guide `c5Guide` submitting for verification. -/
def c5GuideSubmitted : GuideProfile :=
  ((guideSubmitForVerification c5Guide).toOption).getD c5Guide

/-- An already-verified organiser profile (admin-approved) with all
company fields present. -/
def c5VerifiedOrganiser : OrganiserProfile := { c5Organiser with
  isVerified := true
  verificationStatus := VerificationStatus.approved }

/-- Result of the verified organiser submitting for verification again. -/
def c5VerifiedSubmitted : OrganiserProfile :=
  ((organiserSubmitForVerification 0 c5VerifiedOrganiser).toOption).getD
    c5VerifiedOrganiser

/-- The guide profile `c5Guide` once it is under review. -/
def c5GuideUnderReview : GuideProfile :=
  { c5Guide with verificationStatus := VerificationStatus.underReview }

/-- Result of an admin approving the under-review guide. -/
def c5GuideApproved : GuideProfile :=
  ((verifyGuide 5 2 "approve" none c5GuideUnderReview).toOption).getD
    c5GuideUnderReview

/-- Result of guide 5 rejecting the pending assignment on `c7Trip`. -/
def c7Rejected : TripGuideV1 × GuideUser :=
  ((respondToAssignment "reject" (some "busy") 5 c7Trip c7User).toOption).getD
    (c7Trip, c7User)

/-- Result of guide 5 accepting the pending assignment on `c7Trip`. -/
def c7Accepted : TripGuideV1 × GuideUser :=
  ((respondToAssignment "accept" none 5 c7Trip c7User).toOption).getD
    (c7Trip, c7User)

/-- A concrete second-variant assignment state: guide 5 assigned, pending. -/
def c7TripV2 : TripGuideV2 := {
  guide := some 5
  guideAssignment := {
    status := AssignStatus.pending
    assignedAt := some 0
    respondedAt := none
    rejectionReason := none } }

/-! Helper lemmas about the embedded operations. -/

theorem preSave_bookings (now : Int) (t : Trip) :
    (preSave now t).bookings = t.bookings := by
  unfold preSave
  dsimp only
  split_ifs <;> rfl

theorem preSave_currentBookings (now : Int) (t : Trip) :
    (preSave now t).capacity.currentBookings = t.capacity.currentBookings := by
  unfold preSave
  dsimp only
  split_ifs <;> rfl

theorem activeSum_nil : activeSum [] = 0 := rfl

theorem activeSum_cons (b : Booking) (bs : List Booking) :
    activeSum (b :: bs) = contrib b + activeSum bs := by
  unfold activeSum contrib
  by_cases h : b.bookingStatus = BookingStatus.cancelled <;>
    simp [List.filter_cons, h]

theorem activeSum_append (bs cs : List Booking) :
    activeSum (bs ++ cs) = activeSum bs + activeSum cs := by
  induction bs with
  | nil => rw [List.nil_append, activeSum_nil]; omega
  | cons b bs ih => rw [List.cons_append, activeSum_cons, activeSum_cons, ih]; omega

theorem activeSum_updateFirst (bid : Nat) (f : Booking → Booking)
    (bs : List Booking) :
    ∀ b, bs.find? (fun x => x.id = bid) = some b →
      activeSum (updateFirst bid f bs) =
        activeSum bs - contrib b + contrib (f b) := by
  induction bs with
  | nil => intro b h; simp at h
  | cons b0 bs ih =>
    intro b h
    by_cases h0 : b0.id = bid
    · rw [List.find?_cons_of_pos _ (by simpa using h0)] at h
      injection h with h
      subst h
      unfold updateFirst
      rw [if_pos h0, activeSum_cons, activeSum_cons]
      omega
    · rw [List.find?_cons_of_neg _ (by simpa using h0)] at h
      unfold updateFirst
      rw [if_neg h0, activeSum_cons, activeSum_cons, ih b h]
      omega

theorem find?_sorted_desc_max (d : Int) (l : List RefundRule)
    (hs : l.Pairwise (fun a b => b.daysBeforeTrip ≤ a.daysBeforeTrip)) :
    ∀ r, l.find? (fun x => d ≥ x.daysBeforeTrip) = some r →
      r ∈ l ∧ r.daysBeforeTrip ≤ d ∧
        ∀ q ∈ l, q.daysBeforeTrip ≤ d → q.daysBeforeTrip ≤ r.daysBeforeTrip := by
  induction l with
  | nil => intro r h; simp at h
  | cons a l ih =>
    intro r h
    rw [List.pairwise_cons] at hs
    by_cases ha : d ≥ a.daysBeforeTrip
    · rw [List.find?_cons_of_pos _ (by simpa using ha)] at h
      injection h with h
      subst h
      refine ⟨List.mem_cons_self _ _, ha, ?_⟩
      intro q hq hqd
      rcases List.mem_cons.mp hq with rfl | hq
      · omega
      · exact hs.1 q hq
    · rw [List.find?_cons_of_neg _ (by simpa using ha)] at h
      obtain ⟨hmem, hle, hmax⟩ := ih hs.2 r h
      refine ⟨List.mem_cons_of_mem _ hmem, hle, ?_⟩
      intro q hq hqd
      rcases List.mem_cons.mp hq with rfl | hq
      · omega
      · exact hmax q hq hqd

theorem refundAmountFor_eq_percent (paid : Rat) (d : Int)
    (rules : List RefundRule) :
    refundAmountFor paid d rules = paid * refundPercent d rules / 100 := by
  unfold refundAmountFor refundPercent
  by_cases h : rules ≠ []
  · rw [if_pos h, if_pos h]
    rcases hf : (rules.mergeSort (fun a b => decide (b.daysBeforeTrip ≤ a.daysBeforeTrip))).find?
        (fun r => d ≥ r.daysBeforeTrip) with _ | r
    · simp only [hf]
      simp
    · simp only [hf]
  · rw [if_neg h, if_neg h]
    by_cases h7 : d > 7
    · rw [if_pos h7, if_pos h7]; ring
    · rw [if_neg h7, if_neg h7]
      by_cases h3 : d > 3
      · rw [if_pos h3, if_pos h3]; ring
      · rw [if_neg h3, if_neg h3]; ring

theorem eq_ok_getD {e a : Type} (x : Except e a) (d : a) (h : isOkE x = true) :
    x = Except.ok ((x.toOption).getD d) := by
  cases x with
  | ok v => rfl
  | error v => simp [isOkE] at h

theorem eq_ok_getD_pair {e a b : Type} (x : Except e (a × b)) (d : a × b)
    (h : isOkE x = true) :
    x = Except.ok (((x.toOption).getD d).1, ((x.toOption).getD d).2) := by
  cases x with
  | ok v => rfl
  | error v => simp [isOkE] at h

theorem preSave_status_full (now : Int) (t : Trip)
    (h : t.status = TripStatus.full) (hend : now ≤ t.endDate) :
    (preSave now t).status = TripStatus.full := by
  unfold preSave
  dsimp only
  split_ifs with h1 h2 h3
  · dsimp only at h2; exact absurd h2.1 (by omega)
  · rfl
  · dsimp only at h3; exact absurd h3.1 (by omega)
  · exact h

theorem preSave_status_published (now : Int) (t : Trip)
    (h : t.status = TripStatus.published) (hend : now ≤ t.endDate)
    (hcap : t.capacity.currentBookings < t.capacity.maxPeople) :
    (preSave now t).status = TripStatus.published := by
  unfold preSave
  dsimp only
  split_ifs with h1 h2 h3
  · exact absurd h1.1 (by omega)
  · exact absurd h1.1 (by omega)
  · dsimp only at h3; exact absurd h3.1 (by omega)
  · exact h

theorem bookTrip_ok_spec (now : Int) (user : Option UserRec) (req : BookRequest)
    (newId : Nat) (t t1 : Trip)
    (h : bookTrip now user req newId t = Except.ok t1) :
    (t.status = TripStatus.published ∧ t.isActive = true ∧ t.startDate > now) ∧
    req.numberOfPeople ≤ t.capacity.maxPeople - t.capacity.currentBookings ∧
    activeSum t1.bookings = activeSum t.bookings + req.numberOfPeople ∧
    t1.capacity.currentBookings = t.capacity.currentBookings + req.numberOfPeople ∧
    (now ≤ t.endDate →
      t.capacity.currentBookings + req.numberOfPeople ≥ t.capacity.maxPeople →
      t1.status = TripStatus.full) := by
  unfold bookTrip at h
  dsimp only at h
  by_cases h0 : req.numberOfPeople < 1
  · rw [if_pos h0] at h; exact Except.noConfusion h
  rw [if_neg h0] at h
  by_cases h1 : t.status = TripStatus.published ∧ t.isActive = true ∧
      t.startDate > now
  case neg => rw [if_pos h1] at h; exact Except.noConfusion h
  rw [if_neg (not_not_intro h1)] at h
  by_cases h2 : req.numberOfPeople > t.capacity.maxPeople - t.capacity.currentBookings
  · rw [if_pos h2] at h; exact Except.noConfusion h
  rw [if_neg h2] at h
  rcases user with _ | u
  · exact Except.noConfusion h
  dsimp only at h
  injection h with h
  subst h
  obtain ⟨hstat, hact, hdate⟩ := h1
  refine ⟨⟨hstat, hact, hdate⟩, by omega, ?_, ?_, ?_⟩
  · rw [preSave_bookings, apply_ite Trip.bookings]
    dsimp only
    rw [ite_self, activeSum_append, activeSum_cons, activeSum_nil]
    simp [contrib]
  · rw [preSave_currentBookings, apply_ite Trip.capacity,
      apply_ite Capacity.currentBookings]
    dsimp only
    rw [ite_self]
  · intro hend hfull
    rw [if_pos hfull]
    exact preSave_status_full now _ rfl hend

theorem cancelMyBooking_ok_spec (now : Int) (userId bid : Nat) (t t1 : Trip)
    (amt : Rat) (h : cancelMyBooking now userId bid t = Except.ok (t1, amt)) :
    ∃ b, t.bookings.find? (fun x => x.id = bid) = some b ∧
      b.user = userId ∧
      b.bookingStatus ≠ BookingStatus.cancelled ∧
      b.bookingStatus ≠ BookingStatus.completed ∧
      amt = refundAmountFor b.paidAmount (daysUntilTrip now t.startDate)
        t.cancellationPolicy.refundRules ∧
      t1.bookings = updateFirst bid
        (fun x => { x with bookingStatus := BookingStatus.cancelled }) t.bookings ∧
      t1.capacity.currentBookings = t.capacity.currentBookings - b.numberOfPeople ∧
      (t.status = TripStatus.full → now ≤ t.endDate →
        t.capacity.currentBookings - b.numberOfPeople < t.capacity.maxPeople →
        t1.status = TripStatus.published) := by
  unfold cancelMyBooking at h
  rcases hf : t.bookings.find? (fun x => x.id = bid) with _ | b
  · rw [hf] at h; exact Except.noConfusion h
  rw [hf] at h
  dsimp only at h
  by_cases h1 : b.user ≠ userId
  · rw [if_pos h1] at h; exact Except.noConfusion h
  rw [if_neg h1] at h
  by_cases h2 : b.bookingStatus = BookingStatus.cancelled
  · rw [if_pos h2] at h; exact Except.noConfusion h
  rw [if_neg h2] at h
  by_cases h3 : b.bookingStatus = BookingStatus.completed
  · rw [if_pos h3] at h; exact Except.noConfusion h
  rw [if_neg h3] at h
  injection h with h
  injection h with hA hB
  subst hA
  refine ⟨b, hf, not_not.mp h1, h2, h3, hB.symm, ?_, ?_, ?_⟩
  · rw [preSave_bookings, apply_ite Trip.bookings]
    dsimp only
    rw [ite_self]
  · rw [preSave_currentBookings, apply_ite Trip.capacity,
      apply_ite Capacity.currentBookings]
    dsimp only
    rw [ite_self]
  · intro hfull hend hlt
    rw [if_pos hfull]
    exact preSave_status_published now _ rfl hend hlt

theorem removeBooking_ok_spec (now : Int) (refund : Bool) (bid : Nat)
    (t t1 : Trip) (h : removeBooking now refund bid t = Except.ok t1) :
    ∃ b, t.bookings.find? (fun x => x.id = bid) = some b ∧
      ∃ f : Booking → Booking,
        (∀ x, (f x).bookingStatus = BookingStatus.cancelled ∧
          (f x).numberOfPeople = x.numberOfPeople) ∧
        t1.bookings = updateFirst bid f t.bookings ∧
        t1.capacity.currentBookings = t.capacity.currentBookings - b.numberOfPeople := by
  unfold removeBooking at h
  rcases hf : t.bookings.find? (fun x => x.id = bid) with _ | b
  · rw [hf] at h; exact Except.noConfusion h
  rw [hf] at h
  dsimp only at h
  injection h with h
  subst h
  refine ⟨b, hf, fun x =>
    { (if refund ∧ x.paymentStatus = PaymentStatus.completed then
        { x with paymentStatus := PaymentStatus.refunded } else x) with
      bookingStatus := BookingStatus.cancelled }, ?_, ?_, ?_⟩
  · intro x
    refine ⟨rfl, ?_⟩
    dsimp only
    split_ifs <;> rfl
  · rw [preSave_bookings, apply_ite Trip.bookings]
    dsimp only
    rw [ite_self]
  · rw [preSave_currentBookings, apply_ite Trip.capacity,
      apply_ite Capacity.currentBookings]
    dsimp only
    rw [ite_self]

theorem applyOp_preserves_invariant (t : Trip) (op : TripOp)
    (hin : capacityInvariant t) (hs : opSafe t op) :
    capacityInvariant (applyOp t op) := by
  cases op with
  | book now user req newId =>
    unfold applyOp
    rcases hb : bookTrip now user req newId t with e | t1
    · simp only [hb]; exact hin
    · obtain ⟨-, -, hsum, hcur, -⟩ := bookTrip_ok_spec _ _ _ _ _ _ hb
      simp only [hb]
      unfold capacityInvariant at hin ⊢
      omega
  | cancelMy now userId bid =>
    unfold applyOp
    rcases hb : cancelMyBooking now userId bid t with e | pair
    · simp only [hb]; exact hin
    · obtain ⟨t1, amt⟩ := pair
      obtain ⟨b, hf, -, hnc, -, -, hbk, hcur, -⟩ :=
        cancelMyBooking_ok_spec _ _ _ _ _ _ hb
      simp only [hb]
      unfold capacityInvariant at hin ⊢
      have hupd := activeSum_updateFirst bid
        (fun x => { x with bookingStatus := BookingStatus.cancelled }) t.bookings b hf
      have hcb : contrib b = b.numberOfPeople := by
        unfold contrib; rw [if_pos hnc]
      have hcf : contrib { b with bookingStatus := BookingStatus.cancelled } = 0 := by
        unfold contrib; simp
      rw [hbk, hupd, hcb]
      dsimp only
      rw [hcf]
      omega
  | remove now refund bid =>
    unfold applyOp
    rcases hb : removeBooking now refund bid t with e | t1
    · simp only [hb]; exact hin
    · obtain ⟨b, hf, f, hfp, hbk, hcur⟩ := removeBooking_ok_spec _ _ _ _ _ hb
      simp only [hb]
      unfold capacityInvariant at hin ⊢
      have hupd := activeSum_updateFirst bid f t.bookings b hf
      have hcb : contrib b = b.numberOfPeople := by
        unfold contrib
        rw [if_pos (hs b hf)]
      have hcf : contrib (f b) = 0 := by
        unfold contrib
        rw [(hfp b).1]
        simp
      rw [hbk, hupd, hcb, hcf]
      omega

/-! Claim theorems. -/

/-- C1 (counterexample): the capacity invariant is not preserved by every
sequence of add/cancel operations.  Starting from a trip with one active
2-person booking and a consistent counter, applying the organiser
cancellation `removeBooking` twice to the same booking leaves
`capacity.currentBookings` at -2 while the active-booking sum is 0, because
`removeBooking` decrements the counter without checking whether the booking
is already cancelled. -/
theorem doubleRemove_breaks_capacityInvariant :
    capacityInvariant c1Trip ∧
    ¬capacityInvariant (applyOps c1Trip
      [TripOp.remove 0 false 1, TripOp.remove 0 false 1]) := by
  constructor
  · decide
  · decide

/-- C1 (amended): for every trip whose `capacity.currentBookings` equals
the head-count sum of its non-cancelled bookings, any sequence of
`bookTrip`, `cancelMyBooking` and `removeBooking` operations applied
sequentially preserves that equality, provided every `removeBooking` that
finds its booking targets one that is not already cancelled (a check
`cancelMyBooking` performs itself and `removeBooking` omits). -/
theorem capacityInvariant_preserved (ops : List TripOp) (t : Trip)
    (hin : capacityInvariant t) (hsafe : opsSafe ops t) :
    capacityInvariant (applyOps t ops) := by
  induction ops generalizing t with
  | nil => exact hin
  | cons op ops ih =>
    obtain ⟨h1, h2⟩ := hsafe
    exact ih (applyOp t op) (applyOp_preserves_invariant t op hin h1) h2

/-- C1 (witness): the amended preservation theorem applied to a concrete
trip, a successful 2-person booking and a tourist cancellation. -/
theorem capacityInvariant_preserved_witness :
    capacityInvariant (applyOps c1Trip
      [TripOp.book 0 (some witnessUser) ⟨2, none, none, none⟩ 3,
       TripOp.cancelMy 0 7 1]) :=
  capacityInvariant_preserved _ c1Trip (by decide) ⟨trivial, trivial, trivial⟩

/-- C2 (code bug evaluation): the instance method
`tripSchema.methods.addBooking` accepts a 5-person booking on a trip with
only 2 of 10 places free: instead of failing it pushes the booking and
raises `capacity.currentBookings` to 13, over the trip's capacity, because
its only guard compares `currentBookings` with `maxPeople` and ignores the
requested head-count.  The controller paths reject such requests. -/
theorem addBookingMethod_overbooks :
    (5 : Int) > witnessTrip.capacity.maxPeople - witnessTrip.capacity.currentBookings ∧
    c2Booking.numberOfPeople = 5 ∧
    (addBookingMethod 0 c2Booking witnessTrip).map
      (fun t => t.capacity.currentBookings) = Except.ok 13 ∧
    (13 : Int) > witnessTrip.capacity.maxPeople := by
  with_unfolding_all decide

/-- C3: a successful tourist booking that makes `currentBookings` reach
`maxPeople` leaves the saved trip with status `full`, and a successful
tourist cancellation on a `full` trip leaves it with status `published`.
The hypotheses confine the statement to well-formed states: the trip has
not ended, stored head-counts are at least 1, and the stored counter does
not exceed capacity. -/
theorem full_status_transitions :
    (∀ (now : Int) (user : Option UserRec) (req : BookRequest) (newId : Nat)
        (t t1 : Trip),
      now ≤ t.endDate →
      t.capacity.currentBookings + req.numberOfPeople ≥ t.capacity.maxPeople →
      bookTrip now user req newId t = Except.ok t1 →
      t1.status = TripStatus.full) ∧
    (∀ (now : Int) (userId bookingId : Nat) (t t1 : Trip) (amt : Rat),
      now ≤ t.endDate →
      t.status = TripStatus.full →
      (∀ b ∈ t.bookings, 1 ≤ b.numberOfPeople) →
      t.capacity.currentBookings ≤ t.capacity.maxPeople →
      cancelMyBooking now userId bookingId t = Except.ok (t1, amt) →
      t1.status = TripStatus.published) := by
  constructor
  · intro now user req newId t t1 hend hcap h
    exact (bookTrip_ok_spec _ _ _ _ _ _ h).2.2.2.2 hend hcap
  · intro now userId bookingId t t1 amt hend hfull hmin hcap h
    obtain ⟨b, hf, -, -, -, -, -, -, hstat⟩ := cancelMyBooking_ok_spec _ _ _ _ _ _ h
    have hb : b ∈ t.bookings := List.mem_of_find?_eq_some hf
    exact hstat hfull hend (by have := hmin b hb; omega)

/-- C3 (witness): booking the last 2 places of a published 8-of-10 trip
yields status `full`; cancelling a 2-person booking on a full trip yields
status `published`. -/
theorem full_status_transitions_witness :
    c3BookResult.status = TripStatus.full ∧
    c3CancelPair.1.status = TripStatus.published := by
  constructor
  · exact full_status_transitions.1 0 (some witnessUser) ⟨2, none, none, none⟩ 5
      witnessTrip c3BookResult (by decide) (by decide)
      (eq_ok_getD _ witnessTrip (by with_unfolding_all decide))
  · exact full_status_transitions.2 0 9 2 c3FullTrip c3CancelPair.1 c3CancelPair.2
      (by decide) (by decide) (by decide) (by decide)
      (eq_ok_getD_pair _ (c3FullTrip, 0) (by with_unfolding_all decide))

/-- C4: the refund percentage is a pure function of the day count and the
threshold table.  With no configured rules the default tiers apply (90
above 7 days, 50 above 3 days, else 0); with configured rules, whenever
some rule's `daysBeforeTrip` is at most the day count, the chosen
percentage is that of an applicable rule with the largest such threshold. -/
theorem refundPercent_spec (d : Int) (rules : List RefundRule) :
    (rules = [] →
      refundPercent d rules =
        (if d > 7 then 90 else if d > 3 then 50 else 0)) ∧
    ((∃ r ∈ rules, r.daysBeforeTrip ≤ d) →
      ∃ r ∈ rules, r.daysBeforeTrip ≤ d ∧
        refundPercent d rules = r.refundPercent ∧
        ∀ q ∈ rules, q.daysBeforeTrip ≤ d → q.daysBeforeTrip ≤ r.daysBeforeTrip) := by
  constructor
  · intro h
    subst h
    unfold refundPercent
    simp
  · rintro ⟨r0, hr0, hd0⟩
    have hne : rules ≠ [] := by rintro rfl; simp at hr0
    unfold refundPercent
    rw [if_pos hne]
    have hs0 : (rules.mergeSort
        (fun a b => decide (b.daysBeforeTrip ≤ a.daysBeforeTrip))).Pairwise
        (fun a b : RefundRule => decide (b.daysBeforeTrip ≤ a.daysBeforeTrip) = true) :=
      List.sorted_mergeSort
        (by intro a b c hab hbc; simp only [decide_eq_true_eq] at *; omega)
        (by
          intro a b
          by_cases hab : b.daysBeforeTrip ≤ a.daysBeforeTrip
          · simp [hab]
          · simp [hab]; omega)
        rules
    have hs : (rules.mergeSort
        (fun a b => decide (b.daysBeforeTrip ≤ a.daysBeforeTrip))).Pairwise
        (fun a b : RefundRule => b.daysBeforeTrip ≤ a.daysBeforeTrip) :=
      hs0.imp (fun hab => of_decide_eq_true hab)
    rcases hfind : (rules.mergeSort
        (fun a b => decide (b.daysBeforeTrip ≤ a.daysBeforeTrip))).find?
        (fun r => d ≥ r.daysBeforeTrip) with _ | r
    · exfalso
      rw [List.find?_eq_none] at hfind
      exact hfind r0 (List.mem_mergeSort.mpr hr0) (by simpa using hd0)
    · simp only [hfind]
      obtain ⟨hmem, hle, hmax⟩ := find?_sorted_desc_max d _ hs r hfind
      exact ⟨r, List.mem_mergeSort.mp hmem, hle, rfl,
        fun q hq hqd => hmax q (List.mem_mergeSort.mpr hq) hqd⟩

/-- C4 (witness): on the empty table, 20 days out yields 90%; on the
concrete table `c4Rules`, 15 days out selects the 10-day rule (80%), the
largest threshold not exceeding 15. -/
theorem refundPercent_spec_witness :
    refundPercent 20 [] = 90 ∧
    (∃ r ∈ c4Rules, r.daysBeforeTrip ≤ 15 ∧
      refundPercent 15 c4Rules = r.refundPercent ∧
      ∀ q ∈ c4Rules, q.daysBeforeTrip ≤ 15 → q.daysBeforeTrip ≤ r.daysBeforeTrip) := by
  constructor
  · have h := (refundPercent_spec 20 []).1 rfl
    rw [if_pos (by norm_num : (20 : Int) > 7)] at h
    exact h
  · exact (refundPercent_spec 15 c4Rules).2 ⟨⟨10, 80⟩, by decide, by decide⟩

/-- C9: the refund amount a successful tourist cancellation reports is the
refund percentage applied to the booking's `paidAmount` (not its
`totalAmount`); in particular a booking with `paidAmount = 0` is refunded
0 whatever the day count. -/
theorem cancelRefund_uses_paidAmount (now : Int) (userId bookingId : Nat)
    (t t1 : Trip) (amt : Rat)
    (h : cancelMyBooking now userId bookingId t = Except.ok (t1, amt)) :
    ∃ b, t.bookings.find? (fun x => x.id = bookingId) = some b ∧
      amt = b.paidAmount *
        refundPercent (daysUntilTrip now t.startDate)
          t.cancellationPolicy.refundRules / 100 ∧
      (b.paidAmount = 0 → amt = 0) := by
  obtain ⟨b, hf, -, -, -, hamt, -, -, -⟩ := cancelMyBooking_ok_spec _ _ _ _ _ _ h
  refine ⟨b, hf, ?_, ?_⟩
  · rw [hamt, refundAmountFor_eq_percent]
  · intro hz
    rw [hamt, refundAmountFor_eq_percent, hz]
    simp

/-- C9 (witness): cancelling the 400-paid booking of `c9Trip` 15 days out
refunds 400 times the selected 80% over 100. -/
theorem cancelRefund_uses_paidAmount_witness :
    ∃ b, c9Trip.bookings.find? (fun x => x.id = 1) = some b ∧
      c9CancelPair.2 = b.paidAmount *
        refundPercent (daysUntilTrip 85104000000 c9Trip.startDate)
          c9Trip.cancellationPolicy.refundRules / 100 ∧
      (b.paidAmount = 0 → c9CancelPair.2 = 0) :=
  cancelRefund_uses_paidAmount 85104000000 7 1 c9Trip c9CancelPair.1
    c9CancelPair.2
    (eq_ok_getD_pair _ (c9Trip, 0) (by with_unfolding_all decide))

/-- C10: `bookTrip` succeeds only on a published, active trip whose start
date is strictly in the future, and a valid request (head-count at least 1)
against a trip in any other state fails with the 404 "Trip not found or no
longer available" error, leaving the trip unchanged. -/
theorem bookTrip_requires_available_trip (now : Int) (user : Option UserRec)
    (req : BookRequest) (newId : Nat) (t : Trip) :
    (∀ t1, bookTrip now user req newId t = Except.ok t1 →
      t.status = TripStatus.published ∧ t.isActive = true ∧ now < t.startDate) ∧
    (1 ≤ req.numberOfPeople →
      ¬(t.status = TripStatus.published ∧ t.isActive = true ∧ now < t.startDate) →
      bookTrip now user req newId t =
        Except.error ⟨"Trip not found or no longer available", 404⟩) := by
  constructor
  · intro t1 h
    exact (bookTrip_ok_spec _ _ _ _ _ _ h).1
  · intro hn hbad
    unfold bookTrip
    rw [if_neg (by omega), if_pos hbad]

/-- C10 (witness): a 2-person request against the draft copy of the
witness trip fails with the 404 not-found error. -/
theorem bookTrip_requires_available_trip_witness :
    bookTrip 0 (some witnessUser) ⟨2, none, none, none⟩ 5
      { witnessTrip with status := TripStatus.draft } =
      Except.error ⟨"Trip not found or no longer available", 404⟩ :=
  (bookTrip_requires_available_trip 0 (some witnessUser) ⟨2, none, none, none⟩ 5
    { witnessTrip with status := TripStatus.draft }).2 (by decide) (by decide)

/-- C8: a login that fails because the email is unknown and a login that
fails because the password is wrong (on an active account) produce the
identical observable error — message "Invalid email or password", status
401 — so a failed login does not reveal which field was wrong; the static
`findByCredentials` throws the same message in both cases. -/
theorem login_uniform_invalid_credentials (db : List UserAuth)
    (e1 p1 e2 p2 : String) (u : UserAuth)
    (h1 : db.find? (fun x => x.email = e1) = none)
    (h2 : db.find? (fun x => x.email = e2) = some u)
    (hact : u.isActive = true) (hp : p2 ≠ u.password) :
    login db e1 p1 = Except.error ⟨"Invalid email or password", 401⟩ ∧
    login db e2 p2 = Except.error ⟨"Invalid email or password", 401⟩ ∧
    findByCredentials db e1 p1 = Except.error "Invalid email or password" ∧
    findByCredentials db e2 p2 = Except.error "Invalid email or password" := by
  refine ⟨?_, ?_, ?_, ?_⟩
  · unfold login
    rw [h1]
  · unfold login
    rw [h2]
    dsimp only
    rw [hact]
    simp [hp]
  · unfold findByCredentials
    rw [h1]
  · unfold findByCredentials
    rw [h2]
    dsimp only
    rw [if_pos hp]

/-- C8 (witness): against a table holding one active account, an unknown
email and a wrong password produce the same error. -/
theorem login_uniform_invalid_credentials_witness :
    login c8Db "x@y.z" "p" = Except.error ⟨"Invalid email or password", 401⟩ ∧
    login c8Db "a@b.c" "wrong" = Except.error ⟨"Invalid email or password", 401⟩ ∧
    findByCredentials c8Db "x@y.z" "p" =
      Except.error "Invalid email or password" ∧
    findByCredentials c8Db "a@b.c" "wrong" =
      Except.error "Invalid email or password" :=
  login_uniform_invalid_credentials c8Db "x@y.z" "p" "a@b.c" "wrong"
    ⟨1, "a@b.c", "secret", true⟩ (by decide) (by decide) rfl (by decide)

/-- C5 (counterexample): an already-verified organiser profile submits
for verification: the request succeeds (200 "already verified") with the
profile unchanged, so the status after a successful self-submission is
`approved`, not `under_review`; and on a `pending` organiser with all
required company fields present, the submission fails outright — the
controller assigns the status `'verified'`, which the profile schema's
enum does not admit, so the save is rejected by validation.  Either way no
organiser self-submission reaches `under_review`. -/
theorem organiserSubmit_never_reaches_review :
    (organiserSubmitForVerification 0 c5VerifiedOrganiser).map
      (fun o => o.verificationStatus) =
      Except.ok VerificationStatus.approved ∧
    VerificationStatus.approved ≠ VerificationStatus.underReview ∧
    isOkE (organiserSubmitForVerification 0 c5Organiser) = false := by
  decide

/-- C5 (amended): guide self-submission succeeds only from a
non-verified, non-under-review profile with licence number, languages and
districts present, and moves the status to `under_review`; organiser
self-submission never changes the profile — its only successful outcome
is the already-verified no-op, and on a non-verified profile with the
company name, type and registration number present the auto-approve
attempt assigns the status `'verified'`, which the schema enum rejects at
save time, so the submission fails; the admin verify operations fail,
leaving the profile unchanged, whenever the status is not `under_review`,
and on success move an under-review profile to `approved` or `rejected`. -/
theorem verification_transitions :
    (∀ g g1, guideSubmitForVerification g = Except.ok g1 →
      g.isVerified = false ∧
      g.verificationStatus ≠ VerificationStatus.underReview ∧
      g.licenseNumber ≠ none ∧ g.languagesSpoken ≠ [] ∧
      g.operatingDistricts ≠ [] ∧
      g1.verificationStatus = VerificationStatus.underReview) ∧
    (∀ (now : Int) o o1, organiserSubmitForVerification now o = Except.ok o1 →
      o.isVerified = true ∧ o1 = o) ∧
    (∀ (now : Int) (o : OrganiserProfile), o.isVerified = false →
      o.companyName ≠ none → o.companyType ≠ none →
      o.registrationNumber ≠ none →
      isOkE (organiserSubmitForVerification now o) = false) ∧
    (∀ (now : Int) (adminId : Nat) (action : String) (reason : Option String) g,
      g.verificationStatus ≠ VerificationStatus.underReview →
      verifyGuide now adminId action reason g =
        Except.error ⟨"This guide is not pending verification", 400⟩) ∧
    (∀ (now : Int) (adminId : Nat) (action : String) (reason : Option String) o,
      o.verificationStatus ≠ VerificationStatus.underReview →
      verifyOrganiser now adminId action reason o =
        Except.error ⟨"This organiser is not pending verification", 400⟩) ∧
    (∀ (now : Int) (adminId : Nat) (action : String) (reason : Option String)
        g g1,
      verifyGuide now adminId action reason g = Except.ok g1 →
      g.verificationStatus = VerificationStatus.underReview ∧
      (g1.verificationStatus = VerificationStatus.approved ∨
        g1.verificationStatus = VerificationStatus.rejected)) := by
  refine ⟨?_, ?_, ?_, ?_, ?_, ?_⟩
  · intro g g1 h
    unfold guideSubmitForVerification at h
    split_ifs at h with h1 h2 h3 h4 h5
    injection h with h
    subst h
    refine ⟨by simpa using h1, h2, ?_, h4, h5, rfl⟩
    intro hn
    exact h3 (by simp [hn])
  · intro now o o1 h
    unfold organiserSubmitForVerification at h
    dsimp only at h
    split_ifs at h with h1 h2 h3
    · injection h with h
      exact ⟨by simpa using h1, h.symm⟩
    · exact absurd h3 (by decide)
  · intro now o hv hc1 hc2 hc3
    unfold organiserSubmitForVerification
    rw [if_neg (by simp [hv]), if_neg (by
      simp only [Option.isNone_iff_eq_none]
      rintro (h | h | h)
      · exact hc1 h
      · exact hc2 h
      · exact hc3 h)]
    dsimp only
    rw [if_neg (by decide)]
    rfl
  · intro now adminId action reason g hg
    unfold verifyGuide
    rw [if_pos hg]
  · intro now adminId action reason o ho
    unfold verifyOrganiser
    rw [if_pos ho]
  · intro now adminId action reason g g1 h
    unfold verifyGuide at h
    split_ifs at h with h1 h2 h3
    · injection h with h
      subst h
      exact ⟨not_not.mp h1, Or.inl rfl⟩
    · injection h with h
      subst h
      exact ⟨not_not.mp h1, Or.inr rfl⟩

/-- C5 (witness): the concrete guide submission lands in `under_review`;
the already-verified organiser's submission returns the profile unchanged;
the pending organiser's submission with all fields present fails; admin
verify on a `pending` guide or organiser fails; approving the under-review
guide lands in `approved`. -/
theorem verification_transitions_witness :
    c5GuideSubmitted.verificationStatus = VerificationStatus.underReview ∧
    c5VerifiedSubmitted = c5VerifiedOrganiser ∧
    isOkE (organiserSubmitForVerification 3 c5Organiser) = false ∧
    verifyGuide 5 2 "approve" none c5Guide =
      Except.error ⟨"This guide is not pending verification", 400⟩ ∧
    verifyOrganiser 5 2 "reject" none c5Organiser =
      Except.error ⟨"This organiser is not pending verification", 400⟩ ∧
    (c5GuideApproved.verificationStatus = VerificationStatus.approved ∨
      c5GuideApproved.verificationStatus = VerificationStatus.rejected) := by
  refine ⟨?_, ?_, ?_, ?_, ?_, ?_⟩
  · exact (verification_transitions.1 c5Guide c5GuideSubmitted
      (eq_ok_getD _ c5Guide (by decide))).2.2.2.2.2
  · exact (verification_transitions.2.1 0 c5VerifiedOrganiser c5VerifiedSubmitted
      (eq_ok_getD _ c5VerifiedOrganiser (by decide))).2
  · exact verification_transitions.2.2.1 3 c5Organiser (by decide) (by decide)
      (by decide) (by decide)
  · exact verification_transitions.2.2.2.1 5 2 "approve" none c5Guide (by decide)
  · exact verification_transitions.2.2.2.2.1 5 2 "reject" none c5Organiser
      (by decide)
  · exact (verification_transitions.2.2.2.2.2 5 2 "approve" none
      c5GuideUnderReview c5GuideApproved
      (eq_ok_getD _ c5GuideUnderReview (by decide))).2

theorem calculateRatings_nonempty (a : Attraction) (h : a.reviews ≠ []) :
    (calculateRatings a).reviews = a.reviews ∧
    (calculateRatings a).ratings.overall = toFixed1 (meanRatingOf a.reviews) ∧
    (calculateRatings a).ratings.totalReviews = a.reviews.length ∧
    (calculateRatings a).ratings.distribution.five =
      (a.reviews.filter (fun r => r.rating = 5)).length ∧
    (calculateRatings a).ratings.distribution.four =
      (a.reviews.filter (fun r => r.rating = 4)).length ∧
    (calculateRatings a).ratings.distribution.three =
      (a.reviews.filter (fun r => r.rating = 3)).length ∧
    (calculateRatings a).ratings.distribution.two =
      (a.reviews.filter (fun r => r.rating = 2)).length ∧
    (calculateRatings a).ratings.distribution.one =
      (a.reviews.filter (fun r => r.rating = 1)).length := by
  unfold calculateRatings
  rw [if_neg (by simpa using h)]
  unfold meanRatingOf
  rw [if_neg (by simpa using h)]
  exact ⟨rfl, rfl, rfl, rfl, rfl, rfl, rfl, rfl⟩

/-- C6 (counterexample): adding a 4-star review to an attraction holding
two 5-star reviews stores `ratings.overall = 47/10` (the mean passed
through `toFixed(1)`), while the true mean of the stored reviews is 14/3:
`overall` is the rounded mean, not the mean. -/
theorem addReview_overall_is_rounded :
    (addReview 3 4 c6Attraction).map
      (fun a => (a.ratings.overall, meanRating a)) =
      Except.ok (47 / 10, 14 / 3) ∧
    (47 / 10 : Rat) ≠ 14 / 3 := by
  constructor
  · with_unfolding_all decide
  · with_unfolding_all decide

/-- C6 (amended): after a successful `addReview` the stored attraction
holds the appended review list, `ratings.overall` equal to the mean of all
embedded review ratings rounded by `toFixed(1)`, `totalReviews` equal to
the list length, and the five histogram buckets equal to the exact counts
of each star value; `calculateRatings` on an empty review list sets
`overall` to 0. -/
theorem calculateRatings_spec :
    (∀ (userId : Nat) (rating : Int) (a a1 : Attraction),
      addReview userId rating a = Except.ok a1 →
      a1.reviews = a.reviews ++ [⟨userId, rating⟩] ∧
      a1.ratings.overall = toFixed1 (meanRating a1) ∧
      a1.ratings.totalReviews = a1.reviews.length ∧
      a1.ratings.distribution.five =
        (a1.reviews.filter (fun r => r.rating = 5)).length ∧
      a1.ratings.distribution.four =
        (a1.reviews.filter (fun r => r.rating = 4)).length ∧
      a1.ratings.distribution.three =
        (a1.reviews.filter (fun r => r.rating = 3)).length ∧
      a1.ratings.distribution.two =
        (a1.reviews.filter (fun r => r.rating = 2)).length ∧
      a1.ratings.distribution.one =
        (a1.reviews.filter (fun r => r.rating = 1)).length) ∧
    (∀ a : Attraction, a.reviews = [] →
      (calculateRatings a).ratings.overall = 0) := by
  constructor
  · intro userId rating a a1 h
    unfold addReview at h
    split_ifs at h with h1 h2 h3
    injection h with h
    subst h
    obtain ⟨hrev, hov, htot, h5, h4, h3d, h2d, h1d⟩ :=
      calculateRatings_nonempty
        { a with reviews := a.reviews ++ [⟨userId, rating⟩] } (by simp)
    dsimp only [attractionPreSave, meanRating]
    refine ⟨?_, ?_, ?_, ?_, ?_, ?_, ?_, ?_⟩
    · rw [hrev]
    · rw [hov, hrev]
    · rw [htot, hrev]
    · rw [h5, hrev]
    · rw [h4, hrev]
    · rw [h3d, hrev]
    · rw [h2d, hrev]
    · rw [h1d, hrev]
  · intro a ha
    unfold calculateRatings
    rw [if_pos (by simp [ha])]

/-- C6 (witness): the amended statement at the concrete 4-star review on
the two-5-star attraction, and at a concrete empty attraction. -/
theorem calculateRatings_spec_witness :
    (((addReview 3 4 c6Attraction).toOption.getD c6Attraction).ratings.overall =
      toFixed1 (meanRating ((addReview 3 4 c6Attraction).toOption.getD c6Attraction))) ∧
    (calculateRatings { c6Attraction with reviews := [] }).ratings.overall = 0 := by
  constructor
  · exact (calculateRatings_spec.1 3 4 c6Attraction
      ((addReview 3 4 c6Attraction).toOption.getD c6Attraction)
      (eq_ok_getD _ c6Attraction (by with_unfolding_all decide))).2.1
  · exact calculateRatings_spec.2 { c6Attraction with reviews := [] } rfl

/-- C7 (counterexample): on a trip whose pending assignment names guide 5,
the guide endpoint's reject response leaves `assignedGuide` still set to
guide 5 — the claimed clearing of the guide reference does not happen on
this code path (it records the reason and marks the status rejected). -/
theorem reject_keeps_assignedGuide :
    (respondToAssignment "reject" (some "busy") 5 c7Trip c7User).map
      (fun p => p.1.assignedGuide) = Except.ok (some 5) ∧
    some 5 ≠ (none : Option Nat) := by
  decide

/-- C7 (amended): on the guide endpoint, a successful reject leaves
`assignedGuide` untouched, marks the status `rejected` and records the
reason (defaulting to "No reason provided"), while a successful accept
leaves `assignedGuide` untouched and increments the guide's `totalTours`;
on the unused Trip model method, a reject carrying a reason clears the
`guide` reference and records the reason, and an accept leaves the guide
reference intact (no counter is touched). -/
theorem respondToAssignment_spec :
    (∀ (reason : Option String) (guideId : Nat) (t t1 : TripGuideV1)
        (g g1 : GuideUser),
      respondToAssignment "reject" reason guideId t g = Except.ok (t1, g1) →
      t1.assignedGuide = t.assignedGuide ∧
      t1.guideStatus = AssignStatus.rejected ∧
      t1.guideRejectionReason = some (reason.getD "No reason provided") ∧
      g1 = g) ∧
    (∀ (reason : Option String) (guideId : Nat) (t t1 : TripGuideV1)
        (g g1 : GuideUser),
      respondToAssignment "accept" reason guideId t g = Except.ok (t1, g1) →
      t1.assignedGuide = t.assignedGuide ∧
      t1.guideStatus = AssignStatus.accepted ∧
      g1.totalTours = g.totalTours + 1) ∧
    (∀ (reason : Option String) (now : Int) (t : TripGuideV2),
      reason.isSome = true →
      (respondToGuideAssignment false reason now t).guide = none ∧
      (respondToGuideAssignment false reason now t).guideAssignment.status =
        AssignStatus.rejected ∧
      (respondToGuideAssignment false reason now t).guideAssignment.rejectionReason =
        reason) ∧
    (∀ (reason : Option String) (now : Int) (t : TripGuideV2),
      (respondToGuideAssignment true reason now t).guide = t.guide ∧
      (respondToGuideAssignment true reason now t).guideAssignment.status =
        AssignStatus.accepted) := by
  refine ⟨?_, ?_, ?_, ?_⟩
  · intro reason guideId t t1 g g1 h
    unfold respondToAssignment at h
    rw [if_neg (by simp)] at h
    by_cases h1 : t.assignedGuide = some guideId ∧
      t.guideStatus = AssignStatus.pending
    · rw [if_neg (not_not_intro h1), if_neg (by simp)] at h
      injection h with h
      injection h with hA hB
      subst hA
      subst hB
      exact ⟨rfl, rfl, rfl, rfl⟩
    · rw [if_pos h1] at h
      exact Except.noConfusion h
  · intro reason guideId t t1 g g1 h
    unfold respondToAssignment at h
    rw [if_neg (by simp)] at h
    by_cases h1 : t.assignedGuide = some guideId ∧
      t.guideStatus = AssignStatus.pending
    · rw [if_neg (not_not_intro h1), if_pos rfl] at h
      injection h with h
      injection h with hA hB
      subst hA
      subst hB
      exact ⟨rfl, rfl, rfl⟩
    · rw [if_pos h1] at h
      exact Except.noConfusion h
  · intro reason now t hr
    unfold respondToGuideAssignment
    rw [if_pos ⟨by simp, hr⟩]
    exact ⟨rfl, rfl, rfl⟩
  · intro reason now t
    unfold respondToGuideAssignment
    rw [if_neg (by simp)]
    exact ⟨rfl, rfl⟩

/-- C7 (witness): the endpoint's reject keeps `assignedGuide`, its accept
increments `totalTours`; the model method's reject clears `guide`, its
accept keeps it. -/
theorem respondToAssignment_spec_witness :
    c7Rejected.1.assignedGuide = c7Trip.assignedGuide ∧
    c7Accepted.2.totalTours = c7User.totalTours + 1 ∧
    (respondToGuideAssignment false (some "late") 9 c7TripV2).guide = none ∧
    (respondToGuideAssignment true none 9 c7TripV2).guide = c7TripV2.guide := by
  refine ⟨?_, ?_, ?_, ?_⟩
  · exact (respondToAssignment_spec.1 (some "busy") 5 c7Trip c7Rejected.1 c7User
      c7Rejected.2 (eq_ok_getD_pair _ (c7Trip, c7User) (by decide))).1
  · exact (respondToAssignment_spec.2.1 none 5 c7Trip c7Accepted.1 c7User
      c7Accepted.2 (eq_ok_getD_pair _ (c7Trip, c7User) (by decide))).2.2
  · exact (respondToAssignment_spec.2.2.1 (some "late") 9 c7TripV2 rfl).1
  · exact (respondToAssignment_spec.2.2.2 none 9 c7TripV2).1

end Tourship
